import Mathlib

/-!
Shallow embedding of src/system_health_monitor.py (class SystemHealthMonitor).

Every platform query (psutil, GPUtil, wmi, subprocess) is modelled as a field
of an environment structure whose type is Except Unit when the underlying
call can raise a Python exception.  Each method of the class becomes a Lean
function from its environment and the current health_score to its result;
methods whose body can let an exception escape return Except Unit, methods
whose body catches everything still return Except Unit but never produce an
error, mirroring the try/except structure of the source line by line.
Floating-point metric values (percentages, GB sizes, MHz) are modelled as
rationals, which preserves every comparison the source performs.
-/

deriving instance DecidableEq for Except

/-- A Python exception whose payload we do not inspect. -/
abbrev Exc (α : Type) := Except Unit α

/-- True when an Except value carries a result rather than an exception. -/
def excOk {α : Type} : Exc α → Bool
  | .ok _ => true
  | .error _ => false

/-! ## System information (get_system_info, lines 79-93)

All the platform.* calls used there return best-effort strings and do not
raise, so the environment carries plain strings. -/

structure SysInfoEnv where
  system : String
  release : String
  machine : String
  processor : String
  node : String
  timeStr : String
deriving DecidableEq, Repr

def get_system_info (env : SysInfoEnv) (score : Int) :
    List (String × String) × Int :=
  ([("Operating System", env.system ++ " " ++ env.release),
    ("Architecture", env.machine),
    ("Processor", env.processor),
    ("Hostname", env.node),
    ("Current Time", env.timeStr)], score)

/-! ## Last Windows update (get_last_windows_update, lines 95-124) -/

/-- Python str.strip(): remove leading and trailing whitespace. -/
def pyStrip (s : String) : String :=
  ⟨((s.data.dropWhile Char.isWhitespace).reverse.dropWhile
      Char.isWhitespace).reverse⟩

inductive UpdateOutcome
  | notWindows
  | updateInfo (s : String)
  | noInfo
  | queryFailed
deriving DecidableEq, Repr

structure UpdEnv where
  isWindows : Bool
  /-- subprocess.check_output of the powershell Get-HotFix query. -/
  hotfixQuery : Exc String
deriving DecidableEq, Repr

def get_last_windows_update (env : UpdEnv) (score : Int) :
    Exc (UpdateOutcome × Int) :=
  if env.isWindows = false then .ok (.notWindows, score)
  else
    match env.hotfixQuery with
    | .error _ => .ok (.queryFailed, score)
    | .ok s =>
      let t := pyStrip s
      if t = "" then .ok (.noInfo, score) else .ok (.updateInfo t, score)

/-! ## CPU (get_cpu_info, lines 126-160) -/

structure FreqInfo where
  max : ℚ
  current : ℚ
deriving DecidableEq, Repr

structure CpuEnv where
  /-- psutil.cpu_percent(interval=1). -/
  usage : Exc ℚ
  /-- psutil.cpu_freq(); an unusable result (e.g. None) is an error here. -/
  freq : Exc FreqInfo
  /-- psutil.cpu_count(logical=True). -/
  coreCount : Exc Int
  /-- hasattr(psutil, 'sensors_temperatures'). -/
  hasSensors : Bool
  /-- sensors_temperatures(): some t when a 'coretemp' entry with a first
  reading t exists, none when the key is absent. -/
  coretemp : Exc (Option ℚ)
deriving DecidableEq, Repr

def get_cpu_info (env : CpuEnv) (score : Int) : Exc Int :=
  match env.usage, env.freq, env.coreCount with
  | .ok usage, .ok _, .ok _ =>
    if env.hasSensors then
      match env.coretemp with
      | .error _ => .ok score
      | .ok ct =>
        let s1 :=
          match ct with
          | some t => if 85 < t then score - 15 else score
          | none => score
        .ok (if 85 < usage then s1 - 10 else s1)
    else
      .ok (if 85 < usage then score - 10 else score)
  | _, _, _ => .ok score

/-! ## RAM (get_ram_info, lines 162-178) -/

structure MemInfo where
  total : ℚ
  used : ℚ
  percent : ℚ
deriving DecidableEq, Repr

structure RamEnv where
  /-- psutil.virtual_memory(). -/
  virtualMemory : Exc MemInfo
deriving DecidableEq, Repr

def get_ram_info (env : RamEnv) (score : Int) : Exc Int :=
  match env.virtualMemory with
  | .error _ => .ok score
  | .ok mem => .ok (if 85 < mem.percent then score - 10 else score)

/-! ## Disk (get_disk_info, lines 180-201)

psutil.disk_partitions() is called outside any try block; each per-partition
psutil.disk_usage call sits inside its own try, with PermissionError and any
other exception both caught. -/

inductive DiskErr
  | permission
  | other
deriving DecidableEq, Repr

structure DiskUsage where
  total : ℚ
  used : ℚ
  free : ℚ
  percent : ℚ
deriving DecidableEq, Repr

structure PartitionEnv where
  device : String
  mountpoint : String
  /-- psutil.disk_usage(partition.mountpoint). -/
  usage : Except DiskErr DiskUsage
deriving DecidableEq, Repr

structure DiskEnv where
  /-- psutil.disk_partitions(); unguarded, so an error propagates. -/
  partitions : Exc (List PartitionEnv)
deriving DecidableEq, Repr

/-- Body of the per-partition loop of get_disk_info. -/
def diskPartStep (score : Int) (p : PartitionEnv) : Int :=
  match p.usage with
  | .error _ => score
  | .ok u => if 90 < u.percent then score - 10 else score

def get_disk_info (env : DiskEnv) (score : Int) : Exc Int :=
  match env.partitions with
  | .error e => .error e
  | .ok parts => .ok (parts.foldl diskPartStep score)

/-! ## Battery (get_battery_info, lines 203-217)

psutil.sensors_battery() is called with no try block around it. -/

structure BatteryInfo where
  percent : ℚ
  power_plugged : Bool
deriving DecidableEq, Repr

structure BatteryEnv where
  /-- psutil.sensors_battery(); none models a machine without a battery. -/
  battery : Exc (Option BatteryInfo)
deriving DecidableEq, Repr

def get_battery_info (env : BatteryEnv) (score : Int) : Exc Int :=
  match env.battery with
  | .error e => .error e
  | .ok none => .ok score
  | .ok (some b) =>
    .ok (if b.percent < 30 ∧ b.power_plugged = false then score - 10 else score)

/-! ## GPU (get_gpu_info lines 219-243, _fallback_gpu_detection lines 245-272)

The primary path iterates over GPUtil.getGPUs(); the WMI fallback runs when
the list is empty or GPUtil raises, and the fallback catches its own WMI
errors.  Only the primary path can touch the score. -/

structure GpuInfo where
  name : String
  memoryTotal : ℚ
  memoryUsed : ℚ
  temperature : ℚ
  load : ℚ
deriving DecidableEq, Repr

inductive FallbackOutcome
  | notWindows
  | wmiFailed
  | identified (adapters : List (String × String))
      (monitors : List (String × Int × Int))
  | nothingFound
deriving DecidableEq, Repr

structure FbEnv where
  /-- platform.system() == "Windows". -/
  isWindows : Bool
  /-- wmi.WMI() plus Win32_VideoController() and Win32_DesktopMonitor():
  adapter (name, driver version) pairs and monitor (name, width, height). -/
  wmiQuery : Exc (List (String × String) × List (String × Int × Int))
deriving DecidableEq, Repr

/-- Embedding of the method named _fallback_gpu_detection in the source. -/
def fallback_gpu_detection (env : FbEnv) (score : Int) :
    FallbackOutcome × Int :=
  if env.isWindows then
    match env.wmiQuery with
    | .error _ => (.wmiFailed, score)
    | .ok (gl, dl) =>
      if gl.isEmpty ∧ dl.isEmpty then (.nothingFound, score)
      else (.identified gl dl, score)
  else (.notWindows, score)

structure GpuEnv where
  /-- GPUtil.getGPUs(). -/
  gpus : Exc (List GpuInfo)
  fb : FbEnv
deriving DecidableEq, Repr

/-- Body of the per-GPU loop of get_gpu_info. -/
def gpuStep (score : Int) (g : GpuInfo) : Int :=
  if 90 < g.load * 100 ∨ 85 < g.temperature then score - 10 else score

def get_gpu_info (env : GpuEnv) (score : Int) : Exc Int :=
  match env.gpus with
  | .error _ => .ok (fallback_gpu_detection env.fb score).2
  | .ok gpus =>
    if gpus.isEmpty then .ok (fallback_gpu_detection env.fb score).2
    else .ok (gpus.foldl gpuStep score)

/-! ## Network (get_network_info, lines 274-290) -/

structure NetAddr where
  family : Int
  address : String
deriving DecidableEq, Repr

/-- The constant the source compares addr.family against for MAC addresses
(psutil.AF_LINK on Windows); the literal -1 appears at line 284. -/
def AF_LINK : Int := -1

/-- socket.AF_INET. -/
def AF_INET : Int := 2

structure NetEnv where
  /-- psutil.net_if_addrs(). -/
  interfaces : Exc (List (String × List NetAddr))
deriving DecidableEq, Repr

inductive NetLine
  | iface (name : String)
  | mac (addr : String)
  | ip (addr : String)
deriving DecidableEq, Repr

def netAddrLines (a : NetAddr) : List NetLine :=
  if a.family = AF_LINK then [.mac a.address]
  else if a.family = AF_INET then [.ip a.address]
  else []

def netIfaceLines (i : String × List NetAddr) : List NetLine :=
  .iface i.1 :: i.2.flatMap netAddrLines

def get_network_info (env : NetEnv) (score : Int) :
    Exc (List NetLine × Int) :=
  match env.interfaces with
  | .error _ => .ok ([], score)
  | .ok ifs => .ok (ifs.flatMap netIfaceLines, score)

/-! ## Advanced hardware (get_advanced_hardware_info, lines 292-317) -/

inductive AdvOutcome
  | notWindows
  | boardInfo (mbManufacturer mbModel biosManufacturer biosVersion : String)
  | queryFailed
deriving DecidableEq, Repr

structure AdvEnv where
  isWindows : Bool
  /-- wmi.WMI(), Win32_BaseBoard()[0] and Win32_BIOS()[0] in one try block. -/
  boardQuery : Exc (String × String × String × String)
deriving DecidableEq, Repr

def get_advanced_hardware_info (env : AdvEnv) (score : Int) :
    Exc (AdvOutcome × Int) :=
  if env.isWindows = false then .ok (.notWindows, score)
  else
    match env.boardQuery with
    | .error _ => .ok (.queryFailed, score)
    | .ok (m1, m2, b1, b2) => .ok (.boardInfo m1 m2 b1 b2, score)

/-! ## Upgrade compatibility checker (check_upgrade_compatibility, 319-451) -/

structure UpgradeRequirements where
  cpuCores : Int
  cpuFreq : ℚ
  ramGB : ℚ
  diskGB : ℚ
deriving DecidableEq, Repr

/-- Requirement table of the version-7 and version-8 branches. -/
def legacyReq : UpgradeRequirements :=
  { cpuCores := 1, cpuFreq := 1000, ramGB := 2, diskGB := 40 }

/-- Requirement table of the version-10, build < 22000 branch. -/
def win11Req : UpgradeRequirements :=
  { cpuCores := 2, cpuFreq := 1000, ramGB := 4, diskGB := 64 }

/-- Outcome of the single try block that queries Secure Boot and then TPM.
A report field of none means the corresponding PASSED/FAILED line was never
printed because an exception occurred first. -/
structure TpmBlockResult where
  secureBootReport : Option Bool
  tpmReport : Option Bool
  blockOk : Bool
deriving DecidableEq, Repr

structure UpgradeReport where
  target : String
  cpuOk : Bool
  ramOk : Bool
  diskOk : Bool
  tpmBlock : Option TpmBlockResult
  compatible : Bool
deriving DecidableEq, Repr

inductive UpgradeOutcome
  | notWindows
  | alreadyUpgraded
  | noPath (version : Int)
  | checked (r : UpgradeReport)
deriving DecidableEq, Repr

structure UpgEnv where
  isWindows : Bool
  /-- int(platform.release().split('.')[0]). -/
  releaseMajor : Int
  /-- int(platform.version().split('.')[2]); read only in the major-10 branch. -/
  buildNumber : Int
  /-- psutil.cpu_count(logical=True) and psutil.cpu_freq().current, one try. -/
  cpuQuery : Exc (Int × ℚ)
  /-- psutil.virtual_memory().total / 1024^3. -/
  ramQuery : Exc ℚ
  /-- psutil.disk_usage of the C: drive, total / 1024^3. -/
  diskQuery : Exc ℚ
  /-- wmi.WMI() and Win32_OperatingSystem()[0].SecureBoot. -/
  secureBootQuery : Exc Bool
  /-- Win32_Tpm()[0].SpecVersion; none models a falsy version value. -/
  tpmQuery : Exc (Option String)
deriving DecidableEq, Repr

def leadsChars : List Char → List Char → Bool
  | [], _ => true
  | _ :: _, [] => false
  | a :: as, b :: bs => a == b && leadsChars as bs

def charsContain (pat : List Char) : List Char → Bool
  | [] => leadsChars pat []
  | c :: cs => leadsChars pat (c :: cs) || charsContain pat cs

/-- Python substring membership: pat in s. -/
def containsSubstring (s pat : String) : Bool :=
  charsContain pat.data s.data

/-- is_tpm_2_0 = '2.0' in tpm_version if tpm_version else False (line 432). -/
def isTpm20 (v : Option String) : Bool :=
  match v with
  | none => false
  | some s => if s = "" then false else containsSubstring s "2.0"

/-- The try block of lines 417-442: Secure Boot first, then TPM; an
exception anywhere marks the whole block failed and skips what remains. -/
def runTpmBlock (env : UpgEnv) : TpmBlockResult :=
  match env.secureBootQuery with
  | .error _ => { secureBootReport := none, tpmReport := none, blockOk := false }
  | .ok sb =>
    match env.tpmQuery with
    | .error _ =>
      { secureBootReport := some sb, tpmReport := none, blockOk := false }
    | .ok v =>
      let t := isTpm20 v
      { secureBootReport := some sb, tpmReport := some t, blockOk := sb && t }

/-- CPU requirement (lines 374-387): a query failure counts as FAILED. -/
def cpuReqCheck (q : Exc (Int × ℚ)) (req : UpgradeRequirements) : Bool :=
  match q with
  | .error _ => false
  | .ok cf => if cf.1 < req.cpuCores ∨ cf.2 < req.cpuFreq then false else true

/-- RAM requirement (lines 389-400). -/
def ramReqCheck (q : Exc ℚ) (req : UpgradeRequirements) : Bool :=
  match q with
  | .error _ => false
  | .ok r => if r < req.ramGB then false else true

/-- Storage requirement (lines 402-414). -/
def diskReqCheck (q : Exc ℚ) (req : UpgradeRequirements) : Bool :=
  match q with
  | .error _ => false
  | .ok d => if d < req.diskGB then false else true

/-- Lines 371-451: the four check sections run unconditionally in sequence,
each one only lowering the compatible flag, exactly as in the source. -/
def runRequirementChecks (env : UpgEnv) (target : String)
    (req : UpgradeRequirements) : UpgradeReport :=
  let cpuOk := cpuReqCheck env.cpuQuery req
  let ramOk := ramReqCheck env.ramQuery req
  let diskOk := diskReqCheck env.diskQuery req
  let tb := if target = "Windows 11" then some (runTpmBlock env) else none
  { target := target, cpuOk := cpuOk, ramOk := ramOk, diskOk := diskOk,
    tpmBlock := tb,
    compatible := cpuOk && ramOk && diskOk &&
      (match tb with | none => true | some b => b.blockOk) }

def check_upgrade_compatibility (env : UpgEnv) (score : Int) :
    UpgradeOutcome × Int :=
  if env.isWindows = false then (.notWindows, score)
  else if env.releaseMajor = 7 then
    (.checked (runRequirementChecks env "Windows 8.1" legacyReq), score)
  else if env.releaseMajor = 8 then
    (.checked (runRequirementChecks env "Windows 10" legacyReq), score)
  else if env.releaseMajor = 10 then
    if 22000 ≤ env.buildNumber then (.alreadyUpgraded, score)
    else (.checked (runRequirementChecks env "Windows 11" win11Req), score)
  else (.noPath env.releaseMajor, score)

/-! ## Health report (show_health_report, lines 470-484) -/

inductive ReportTone
  | good
  | attention
  | poor
deriving DecidableEq, Repr

/-- Message selection of lines 476-480. -/
def reportTone (score : Int) : ReportTone :=
  if 80 ≤ score then .good
  else if 50 ≤ score then .attention
  else .poor

def show_health_report (score : Int) : ReportTone × Int :=
  (reportTone score, score)

/-! ## Report assembler (run_all_checks, lines 453-468)

self.health_score starts at 100 in __init__ (line 74). -/

def healthScoreInit : Int := 100

structure FullEnv where
  sys : SysInfoEnv
  upd : UpdEnv
  cpu : CpuEnv
  ram : RamEnv
  disk : DiskEnv
  battery : BatteryEnv
  gpu : GpuEnv
  net : NetEnv
  adv : AdvEnv
  upg : UpgEnv
deriving DecidableEq, Repr

structure RunResult where
  netLines : List NetLine
  upgrade : UpgradeOutcome
  finalScore : Int
  tone : ReportTone
deriving DecidableEq, Repr

/-- The sequential run: an uncaught exception in any step aborts the rest,
exactly as an uncaught Python exception would propagate out of the method. -/
def run_all_checks (env : FullEnv) (score : Int) : Exc RunResult :=
  match get_last_windows_update env.upd (get_system_info env.sys score).2 with
  | .error e => .error e
  | .ok (_, s2) =>
  match get_cpu_info env.cpu s2 with
  | .error e => .error e
  | .ok s3 =>
  match get_ram_info env.ram s3 with
  | .error e => .error e
  | .ok s4 =>
  match get_disk_info env.disk s4 with
  | .error e => .error e
  | .ok s5 =>
  match get_battery_info env.battery s5 with
  | .error e => .error e
  | .ok s6 =>
  match get_gpu_info env.gpu s6 with
  | .error e => .error e
  | .ok s7 =>
  match get_network_info env.net s7 with
  | .error e => .error e
  | .ok (lines, s8) =>
  match get_advanced_hardware_info env.adv s8 with
  | .error e => .error e
  | .ok (_, s9) =>
  .ok { netLines := lines,
        upgrade := (check_upgrade_compatibility env.upg s9).1,
        finalScore :=
          (show_health_report (check_upgrade_compatibility env.upg s9).2).2,
        tone :=
          (show_health_report (check_upgrade_compatibility env.upg s9).2).1 }

/-- Entry point: SystemHealthMonitor() then run_all_checks() (lines 486-488). -/
def monitorRun (env : FullEnv) : Exc RunResult :=
  run_all_checks env healthScoreInit

/-! ## Penalty accounting

For each check, the condition under which its warning-and-deduction branch
is actually reached in the source, and the corresponding penalty. -/

/-- All queries of get_cpu_info up to the final usage test succeed, so the
body reaches its threshold tests instead of the except handler. -/
def cpuQueriesOk (env : CpuEnv) : Bool :=
  excOk env.usage && excOk env.freq && excOk env.coreCount &&
    (!env.hasSensors || excOk env.coretemp)

/-- The -15 branch of line 145 is reached and taken. -/
def cpuTempTriggered (env : CpuEnv) : Bool :=
  cpuQueriesOk env && env.hasSensors &&
    (match env.coretemp with
     | .ok (some t) => decide (85 < t)
     | _ => false)

/-- The -10 branch of line 154 is reached and taken. -/
def cpuUsageTriggered (env : CpuEnv) : Bool :=
  cpuQueriesOk env &&
    (match env.usage with
     | .ok u => decide (85 < u)
     | _ => false)

def cpuPenalty (env : CpuEnv) : Int :=
  (if cpuTempTriggered env then 15 else 0) +
    (if cpuUsageTriggered env then 10 else 0)

/-- The -10 branch of line 172 is reached and taken. -/
def ramTriggered (env : RamEnv) : Bool :=
  match env.virtualMemory with
  | .ok m => decide (85 < m.percent)
  | .error _ => false

def ramPenalty (env : RamEnv) : Int :=
  if ramTriggered env then 10 else 0

/-- A partition whose usage query succeeds with percent above 90 (line 193). -/
def partBreach (p : PartitionEnv) : Bool :=
  match p.usage with
  | .ok u => decide (90 < u.percent)
  | .error _ => false

def diskPenaltyList : List PartitionEnv → Int
  | [] => 0
  | p :: ps => (if partBreach p then 10 else 0) + diskPenaltyList ps

def diskPenalty (env : DiskEnv) : Int :=
  match env.partitions with
  | .ok parts => diskPenaltyList parts
  | .error _ => 0

/-- The -10 branch of line 212 is reached and taken. -/
def batteryTriggered (env : BatteryEnv) : Bool :=
  match env.battery with
  | .ok (some b) => decide (b.percent < 30) && !b.power_plugged
  | _ => false

def batteryPenalty (env : BatteryEnv) : Int :=
  if batteryTriggered env then 10 else 0

/-- A GPU taking the -10 branch of line 233. -/
def gpuBreach (g : GpuInfo) : Bool :=
  decide (90 < g.load * 100) || decide (85 < g.temperature)

def gpuPenaltyList : List GpuInfo → Int
  | [] => 0
  | g :: gs => (if gpuBreach g then 10 else 0) + gpuPenaltyList gs

def gpuPenalty (env : GpuEnv) : Int :=
  match env.gpus with
  | .ok gs => gpuPenaltyList gs
  | .error _ => 0

def totalPenalty (env : FullEnv) : Int :=
  cpuPenalty env.cpu + ramPenalty env.ram + diskPenalty env.disk +
    batteryPenalty env.battery + gpuPenalty env.gpu

/-! ## Helper lemmas relating each collector to its penalty -/

theorem get_system_info_frame (env : SysInfoEnv) (score : Int) :
    (get_system_info env score).2 = score := rfl

/-- The outcome reported by get_last_windows_update, score-independent. -/
def updOutcomeOf (env : UpdEnv) : UpdateOutcome :=
  if env.isWindows = false then .notWindows
  else
    match env.hotfixQuery with
    | .error _ => .queryFailed
    | .ok s => if pyStrip s = "" then .noInfo else .updateInfo (pyStrip s)

theorem get_last_windows_update_eq (env : UpdEnv) (score : Int) :
    get_last_windows_update env score = .ok (updOutcomeOf env, score) := by
  obtain ⟨w, q⟩ := env
  cases w with
  | false => rfl
  | true =>
    cases q with
    | error e => rfl
    | ok s =>
      by_cases ht : pyStrip s = "" <;>
        simp [get_last_windows_update, updOutcomeOf, ht]

theorem get_cpu_info_eq (env : CpuEnv) (score : Int) :
    get_cpu_info env score = .ok (score - cpuPenalty env) := by
  obtain ⟨u, f, c, hs, ct⟩ := env
  simp only [get_cpu_info, cpuPenalty, cpuTempTriggered, cpuUsageTriggered,
    cpuQueriesOk, excOk]
  cases u with
  | error e => cases f <;> cases c <;> simp
  | ok uv =>
    cases f with
    | error e => cases c <;> simp
    | ok fv =>
      cases c with
      | error e => simp
      | ok cv =>
        cases hs with
        | false =>
          simp only [Bool.not_false, Bool.true_and, Bool.and_true,
            Bool.and_false, Bool.false_and, if_false]
          by_cases hu : (85 : ℚ) < uv <;> simp [hu]
        | true =>
          cases ct with
          | error e => simp
          | ok cto =>
            cases cto with
            | none =>
              by_cases hu : (85 : ℚ) < uv <;> simp [hu]
            | some t =>
              by_cases ht : (85 : ℚ) < t <;>
                by_cases hu : (85 : ℚ) < uv <;>
                simp [ht, hu] <;> omega

theorem get_ram_info_eq (env : RamEnv) (score : Int) :
    get_ram_info env score = .ok (score - ramPenalty env) := by
  obtain ⟨m⟩ := env
  simp only [get_ram_info, ramPenalty, ramTriggered]
  cases m with
  | error e => simp
  | ok mv => by_cases h : (85 : ℚ) < mv.percent <;> simp [h]

theorem foldl_diskPartStep (parts : List PartitionEnv) (score : Int) :
    parts.foldl diskPartStep score = score - diskPenaltyList parts := by
  induction parts generalizing score with
  | nil => simp [diskPenaltyList]
  | cons p ps ih =>
    rw [List.foldl_cons, ih]
    cases hp : p.usage with
    | error e => simp [diskPenaltyList, diskPartStep, partBreach, hp]
    | ok u =>
      by_cases h : (90 : ℚ) < u.percent <;>
        simp [diskPenaltyList, diskPartStep, partBreach, hp, h] <;> omega

theorem get_disk_info_ok (env : DiskEnv) (score : Int)
    (parts : List PartitionEnv) (h : env.partitions = .ok parts) :
    get_disk_info env score = .ok (score - diskPenaltyList parts) := by
  simp [get_disk_info, h, foldl_diskPartStep]

theorem get_disk_info_err (env : DiskEnv) (score : Int) (e : Unit)
    (h : env.partitions = .error e) :
    get_disk_info env score = .error e := by
  simp [get_disk_info, h]

theorem get_battery_info_ok (env : BatteryEnv) (score : Int)
    (b : Option BatteryInfo) (h : env.battery = .ok b) :
    get_battery_info env score = .ok (score - batteryPenalty env) := by
  simp only [get_battery_info, batteryPenalty, batteryTriggered, h]
  cases b with
  | none => simp
  | some bi =>
    by_cases hp : bi.percent < 30 <;> cases hpl : bi.power_plugged <;>
      simp [hp, hpl] <;> omega

theorem get_battery_info_err (env : BatteryEnv) (score : Int) (e : Unit)
    (h : env.battery = .error e) :
    get_battery_info env score = .error e := by
  simp [get_battery_info, h]

theorem fallback_gpu_detection_frame (env : FbEnv) (score : Int) :
    (fallback_gpu_detection env score).2 = score := by
  unfold fallback_gpu_detection
  split
  · cases env.wmiQuery with
    | error e => rfl
    | ok p => simp only []; split <;> rfl
  · rfl

theorem foldl_gpuStep (gs : List GpuInfo) (score : Int) :
    gs.foldl gpuStep score = score - gpuPenaltyList gs := by
  induction gs generalizing score with
  | nil => simp [gpuPenaltyList]
  | cons g gs ih =>
    rw [List.foldl_cons, ih]
    by_cases hl : (90 : ℚ) < g.load * 100 <;>
      by_cases ht : (85 : ℚ) < g.temperature <;>
      simp [gpuPenaltyList, gpuStep, gpuBreach, hl, ht] <;> omega

theorem get_gpu_info_eq (env : GpuEnv) (score : Int) :
    get_gpu_info env score = .ok (score - gpuPenalty env) := by
  obtain ⟨gq, fb⟩ := env
  cases gq with
  | error e => simp [get_gpu_info, gpuPenalty, fallback_gpu_detection_frame]
  | ok gs =>
    cases gs with
    | nil =>
      simp [get_gpu_info, gpuPenalty, gpuPenaltyList,
        fallback_gpu_detection_frame]
    | cons g rest =>
      show Except.ok ((g :: rest).foldl gpuStep score) =
        Except.ok (score - gpuPenaltyList (g :: rest))
      rw [foldl_gpuStep]

/-- The lines printed by get_network_info, score-independent. -/
def netLinesOf (env : NetEnv) : List NetLine :=
  match env.interfaces with
  | .error _ => []
  | .ok ifs => ifs.flatMap netIfaceLines

theorem get_network_info_eq (env : NetEnv) (score : Int) :
    get_network_info env score = .ok (netLinesOf env, score) := by
  unfold get_network_info netLinesOf
  cases env.interfaces with
  | error e => rfl
  | ok ifs => rfl

/-- The outcome reported by get_advanced_hardware_info, score-independent. -/
def advOutcomeOf (env : AdvEnv) : AdvOutcome :=
  if env.isWindows = false then .notWindows
  else
    match env.boardQuery with
    | .error _ => .queryFailed
    | .ok (m1, m2, b1, b2) => .boardInfo m1 m2 b1 b2

theorem get_advanced_hardware_info_eq (env : AdvEnv) (score : Int) :
    get_advanced_hardware_info env score = .ok (advOutcomeOf env, score) := by
  unfold get_advanced_hardware_info advOutcomeOf
  split
  · rfl
  · cases env.boardQuery with
    | error e => rfl
    | ok q => rfl

theorem check_upgrade_compatibility_frame (env : UpgEnv) (score : Int) :
    (check_upgrade_compatibility env score).2 = score := by
  unfold check_upgrade_compatibility
  split
  · rfl
  · split
    · rfl
    · split
      · rfl
      · split
        · split <;> rfl
        · rfl

theorem show_health_report_frame (score : Int) :
    (show_health_report score).2 = score := rfl

theorem diskPenaltyList_nonneg (parts : List PartitionEnv) :
    0 ≤ diskPenaltyList parts := by
  induction parts with
  | nil => simp [diskPenaltyList]
  | cons p ps ih =>
    simp only [diskPenaltyList]
    split <;> omega

theorem gpuPenaltyList_nonneg (gs : List GpuInfo) :
    0 ≤ gpuPenaltyList gs := by
  induction gs with
  | nil => simp [gpuPenaltyList]
  | cons g rest ih =>
    simp only [gpuPenaltyList]
    split <;> omega

theorem totalPenalty_nonneg (env : FullEnv) : 0 ≤ totalPenalty env := by
  have hd : 0 ≤ diskPenalty env.disk := by
    unfold diskPenalty
    cases env.disk.partitions with
    | error e => simp
    | ok parts => simpa using diskPenaltyList_nonneg parts
  have hg : 0 ≤ gpuPenalty env.gpu := by
    unfold gpuPenalty
    cases env.gpu.gpus with
    | error e => simp
    | ok gs => simpa using gpuPenaltyList_nonneg gs
  unfold totalPenalty cpuPenalty ramPenalty batteryPenalty
  split <;> split <;> split <;> split <;> omega

/-- Shared accounting lemma: when the two unguarded queries succeed, the run
completes and ends with the initial score minus the penalties of exactly the
breaches triggered in that run. -/
theorem run_all_checks_eq (env : FullEnv) (score : Int)
    (parts : List PartitionEnv) (hd : env.disk.partitions = .ok parts)
    (b : Option BatteryInfo) (hb : env.battery.battery = .ok b) :
    run_all_checks env score =
      .ok { netLines := netLinesOf env.net,
            upgrade := (check_upgrade_compatibility env.upg
              (score - totalPenalty env)).1,
            finalScore := score - totalPenalty env,
            tone := reportTone (score - totalPenalty env) } := by
  have harith :
      score - cpuPenalty env.cpu - ramPenalty env.ram - diskPenaltyList parts -
          batteryPenalty env.battery - gpuPenalty env.gpu =
        score - totalPenalty env := by
    simp only [totalPenalty, diskPenalty, hd]
    omega
  simp only [run_all_checks, get_system_info_frame,
    get_last_windows_update_eq, get_cpu_info_eq, get_ram_info_eq,
    get_disk_info_ok env.disk _ parts hd,
    get_battery_info_ok env.battery _ b hb, get_gpu_info_eq,
    get_network_info_eq, get_advanced_hardware_info_eq,
    check_upgrade_compatibility_frame, show_health_report, harith]

/-- A disk_partitions exception aborts the whole run. -/
theorem run_all_checks_disk_err (env : FullEnv) (score : Int) (e : Unit)
    (hd : env.disk.partitions = .error e) :
    run_all_checks env score = .error e := by
  simp only [run_all_checks, get_system_info_frame,
    get_last_windows_update_eq, get_cpu_info_eq, get_ram_info_eq,
    get_disk_info_err env.disk _ e hd]

/-- A sensors_battery exception aborts the whole run. -/
theorem run_all_checks_battery_err (env : FullEnv) (score : Int) (e : Unit)
    (parts : List PartitionEnv) (hd : env.disk.partitions = .ok parts)
    (hb : env.battery.battery = .error e) :
    run_all_checks env score = .error e := by
  simp only [run_all_checks, get_system_info_frame,
    get_last_windows_update_eq, get_cpu_info_eq, get_ram_info_eq,
    get_disk_info_ok env.disk _ parts hd,
    get_battery_info_err env.battery _ e hb]

theorem cpuPenalty_nonneg (env : CpuEnv) : 0 ≤ cpuPenalty env := by
  unfold cpuPenalty
  split <;> split <;> omega

theorem ramPenalty_nonneg (env : RamEnv) : 0 ≤ ramPenalty env := by
  unfold ramPenalty
  split <;> omega

theorem batteryPenalty_nonneg (env : BatteryEnv) : 0 ≤ batteryPenalty env := by
  unfold batteryPenalty
  split <;> omega

theorem run_all_checks_ok_finalScore (env : FullEnv) (score : Int)
    (res : RunResult) (h : run_all_checks env score = .ok res) :
    res.finalScore = score - totalPenalty env := by
  cases hd : env.disk.partitions with
  | error e =>
    rw [run_all_checks_disk_err env score e hd] at h
    exact absurd h (by simp)
  | ok parts =>
    cases hb : env.battery.battery with
    | error e =>
      rw [run_all_checks_battery_err env score e parts hd hb] at h
      exact absurd h (by simp)
    | ok b =>
      rw [run_all_checks_eq env score parts hd b hb] at h
      simp only [Except.ok.injEq] at h
      subst h
      rfl

/-! ## Concrete environments for witnesses and counterexamples -/

def baseSysEnv : SysInfoEnv :=
  { system := "Windows", release := "10", machine := "AMD64",
    processor := "Intel64", node := "host-pc", timeStr := "2026-10-12 10:00:00" }

def baseUpdEnv : UpdEnv :=
  { isWindows := true, hotfixQuery := .ok "KB5005565" }

def baseCpuEnv : CpuEnv :=
  { usage := .ok 10, freq := .ok { max := 3200, current := 2400 },
    coreCount := .ok 8, hasSensors := true, coretemp := .ok (some 40) }

def baseRamEnv : RamEnv :=
  { virtualMemory := .ok { total := 16, used := 8, percent := 50 } }

def basePart : PartitionEnv :=
  { device := "C:", mountpoint := "C:\\",
    usage := .ok { total := 500, used := 250, free := 250, percent := 50 } }

def baseDiskEnv : DiskEnv := { partitions := .ok [basePart] }

def baseBatteryEnv : BatteryEnv := { battery := .ok none }

def baseFbEnv : FbEnv :=
  { isWindows := true, wmiQuery := .ok ([("Intel UHD", "27.20.100")], []) }

def baseGpuEnv : GpuEnv := { gpus := .ok [], fb := baseFbEnv }

def baseIpAddr : NetAddr := { family := 2, address := "192.168.1.2" }

def baseMacAddr : NetAddr := { family := -1, address := "aa:bb:cc:dd:ee:ff" }

def baseNetEnv : NetEnv :=
  { interfaces := .ok [("eth0", [baseIpAddr, baseMacAddr])] }

def baseAdvEnv : AdvEnv :=
  { isWindows := true, boardQuery := .ok ("ASUS", "B550", "AMI", "1.20") }

def baseUpgEnv : UpgEnv :=
  { isWindows := true, releaseMajor := 10, buildNumber := 22000,
    cpuQuery := .ok (8, 2400), ramQuery := .ok 16, diskQuery := .ok 500,
    secureBootQuery := .ok true, tpmQuery := .ok (some "2.0") }

def baseFullEnv : FullEnv :=
  { sys := baseSysEnv, upd := baseUpdEnv, cpu := baseCpuEnv,
    ram := baseRamEnv, disk := baseDiskEnv, battery := baseBatteryEnv,
    gpu := baseGpuEnv, net := baseNetEnv, adv := baseAdvEnv,
    upg := baseUpgEnv }

def baseNetLines : List NetLine :=
  [.iface "eth0", .ip "192.168.1.2", .mac "aa:bb:cc:dd:ee:ff"]

def baseRunResult : RunResult :=
  { netLines := baseNetLines, upgrade := .alreadyUpgraded,
    finalScore := 100, tone := .good }

/-- One partition at 95 percent usage. -/
def fullPart : PartitionEnv :=
  { device := "C:", mountpoint := "C:\\",
    usage := .ok { total := 100, used := 95, free := 5, percent := 95 } }

/-- An environment triggering 105 points of penalties: CPU temperature 95
(-15), CPU usage 95 (-10), RAM 95 percent (-10), six partitions at 95
percent (-60), battery at 10 percent unplugged (-10). -/
def negFullEnv : FullEnv :=
  { baseFullEnv with
    cpu := { usage := .ok 95, freq := .ok { max := 3200, current := 2400 },
             coreCount := .ok 8, hasSensors := true,
             coretemp := .ok (some 95) },
    ram := { virtualMemory := .ok { total := 16, used := 15, percent := 95 } },
    disk :=
      { partitions :=
          .ok [fullPart, fullPart, fullPart, fullPart, fullPart, fullPart] },
    battery := { battery := .ok (some { percent := 10, power_plugged := false }) } }

def negRunResult : RunResult :=
  { netLines := baseNetLines, upgrade := .alreadyUpgraded,
    finalScore := -5, tone := .poor }

/-! ## Claims -/

/-- Claim C1: for every run that reaches show_health_report, the final
health score it renders is at most 100 and equals 100 minus the sum of the
penalties of the threshold breaches actually triggered during that run: 15
for a CPU-temperature breach and 10 for each CPU-usage, RAM, disk-partition,
battery, or GPU breach (diskPenalty and gpuPenalty add 10 per breaching
partition or GPU). -/
theorem final_score_is_100_minus_triggered_penalties (env : FullEnv)
    (res : RunResult) (h : monitorRun env = .ok res) :
    res.finalScore =
      100 - ((if cpuTempTriggered env.cpu then 15 else 0) +
        (if cpuUsageTriggered env.cpu then 10 else 0) +
        (if ramTriggered env.ram then 10 else 0) +
        diskPenalty env.disk +
        (if batteryTriggered env.battery then 10 else 0) +
        gpuPenalty env.gpu) ∧
      res.finalScore ≤ 100 := by
  have h1 := run_all_checks_ok_finalScore env healthScoreInit res h
  have h2 := totalPenalty_nonneg env
  unfold healthScoreInit at h1
  unfold totalPenalty cpuPenalty ramPenalty batteryPenalty at h1 h2
  constructor <;> omega

/-- Witness for C1 at a concrete breach-free environment. -/
theorem final_score_is_100_minus_triggered_penalties_witness :
    baseRunResult.finalScore =
      100 - ((if cpuTempTriggered baseFullEnv.cpu then 15 else 0) +
        (if cpuUsageTriggered baseFullEnv.cpu then 10 else 0) +
        (if ramTriggered baseFullEnv.ram then 10 else 0) +
        diskPenalty baseFullEnv.disk +
        (if batteryTriggered baseFullEnv.battery then 10 else 0) +
        gpuPenalty baseFullEnv.gpu) ∧
      baseRunResult.finalScore ≤ 100 :=
  final_score_is_100_minus_triggered_penalties baseFullEnv baseRunResult
    (by decide)

/-- Claim C2: health_score starts at 100 and is monotonically non-increasing
over one report run: each operation of SystemHealthMonitor either preserves
or lowers the score, so a run starting from 100 never exceeds 100 at any
point; and since no clamp at 0 exists, a concrete run with 105 points of
penalties ends at -5. -/
theorem health_score_monotone_and_unclamped :
    healthScoreInit = 100 ∧
    (∀ (e : SysInfoEnv) (s : Int), (get_system_info e s).2 ≤ s) ∧
    (∀ (e : UpdEnv) (s : Int) o s2,
      get_last_windows_update e s = .ok (o, s2) → s2 ≤ s) ∧
    (∀ (e : CpuEnv) (s : Int) s2, get_cpu_info e s = .ok s2 → s2 ≤ s) ∧
    (∀ (e : RamEnv) (s : Int) s2, get_ram_info e s = .ok s2 → s2 ≤ s) ∧
    (∀ (e : DiskEnv) (s : Int) s2, get_disk_info e s = .ok s2 → s2 ≤ s) ∧
    (∀ (e : BatteryEnv) (s : Int) s2,
      get_battery_info e s = .ok s2 → s2 ≤ s) ∧
    (∀ (e : GpuEnv) (s : Int) s2, get_gpu_info e s = .ok s2 → s2 ≤ s) ∧
    (∀ (e : NetEnv) (s : Int) l s2,
      get_network_info e s = .ok (l, s2) → s2 ≤ s) ∧
    (∀ (e : AdvEnv) (s : Int) o s2,
      get_advanced_hardware_info e s = .ok (o, s2) → s2 ≤ s) ∧
    (∀ (e : FbEnv) (s : Int), (fallback_gpu_detection e s).2 ≤ s) ∧
    (∀ (e : UpgEnv) (s : Int), (check_upgrade_compatibility e s).2 ≤ s) ∧
    (∀ s : Int, (show_health_report s).2 ≤ s) ∧
    (∀ (e : FullEnv) (s : Int) res,
      run_all_checks e s = .ok res → res.finalScore ≤ s) ∧
    (monitorRun negFullEnv = .ok negRunResult ∧
      negRunResult.finalScore = -5) := by
  refine ⟨rfl, ?_, ?_, ?_, ?_, ?_, ?_, ?_, ?_, ?_, ?_, ?_, ?_, ?_,
    by decide, by decide⟩
  · intro e s
    exact le_of_eq (get_system_info_frame e s)
  · intro e s o s2 h
    rw [get_last_windows_update_eq] at h
    simp only [Except.ok.injEq, Prod.mk.injEq] at h
    omega
  · intro e s s2 h
    rw [get_cpu_info_eq] at h
    simp only [Except.ok.injEq] at h
    have := cpuPenalty_nonneg e
    omega
  · intro e s s2 h
    rw [get_ram_info_eq] at h
    simp only [Except.ok.injEq] at h
    have := ramPenalty_nonneg e
    omega
  · intro e s s2 h
    cases hp : e.partitions with
    | error err =>
      rw [get_disk_info_err e s err hp] at h
      exact absurd h (by simp)
    | ok parts =>
      rw [get_disk_info_ok e s parts hp] at h
      simp only [Except.ok.injEq] at h
      have := diskPenaltyList_nonneg parts
      omega
  · intro e s s2 h
    cases hb : e.battery with
    | error err =>
      rw [get_battery_info_err e s err hb] at h
      exact absurd h (by simp)
    | ok b =>
      rw [get_battery_info_ok e s b hb] at h
      simp only [Except.ok.injEq] at h
      have := batteryPenalty_nonneg e
      omega
  · intro e s s2 h
    rw [get_gpu_info_eq] at h
    simp only [Except.ok.injEq] at h
    have : 0 ≤ gpuPenalty e := by
      unfold gpuPenalty
      cases e.gpus with
      | error err => simp
      | ok gs => simpa using gpuPenaltyList_nonneg gs
    omega
  · intro e s l s2 h
    rw [get_network_info_eq] at h
    simp only [Except.ok.injEq, Prod.mk.injEq] at h
    omega
  · intro e s o s2 h
    rw [get_advanced_hardware_info_eq] at h
    simp only [Except.ok.injEq, Prod.mk.injEq] at h
    omega
  · intro e s
    exact le_of_eq (fallback_gpu_detection_frame e s)
  · intro e s
    exact le_of_eq (check_upgrade_compatibility_frame e s)
  · intro s
    exact le_of_eq (show_health_report_frame s)
  · intro e s res h
    have h1 := run_all_checks_ok_finalScore e s res h
    have h2 := totalPenalty_nonneg e
    omega

/-- Witness for C2: the monotonicity statement applied to the concrete
negative-score run, whose hypothesis is discharged by evaluation. -/
theorem health_score_monotone_and_unclamped_witness :
    negRunResult.finalScore ≤ 100 := by
  have h := health_score_monotone_and_unclamped
  exact h.2.2.2.2.2.2.2.2.2.2.2.2.2.1 negFullEnv 100 negRunResult
    (by decide)

/-- Environment whose only fault is a raising psutil.sensors_battery(). -/
def batFailFullEnv : FullEnv :=
  { baseFullEnv with battery := { battery := .error () } }

/-- Claim C3 counterexample: get_battery_info calls psutil.sensors_battery()
outside any try block (source line 208), so an exception raised by that
platform query is NOT caught inside the collector: it propagates to
run_all_checks and aborts the run, preventing every later collector from
running.  This refutes the claim that every collector catches its own
errors at its boundary. -/
theorem battery_exception_escapes_collector :
    get_battery_info { battery := .error () } 100 = .error () ∧
    run_all_checks batFailFullEnv 100 = .error () := by
  exact ⟨by decide, by decide⟩

/-- Claim C3 (amended): every collector except two catches the exceptions of
its platform queries at its own boundary, so their failures never prevent
later collectors from running; the exceptions are get_battery_info, whose
psutil.sensors_battery call is unguarded, and get_disk_info, whose
psutil.disk_partitions enumeration is unguarded — exceptions at those two
call sites propagate to run_all_checks.  Per-partition disk_usage errors
and battery readings obtained without raising are still handled inside
their collectors, and a run in which the two unguarded queries succeed
always completes, whatever other query failures occur. -/
theorem collectors_catch_their_errors_except_two_call_sites :
    (∀ (e : UpdEnv) (s : Int), excOk (get_last_windows_update e s) = true) ∧
    (∀ (e : CpuEnv) (s : Int), excOk (get_cpu_info e s) = true) ∧
    (∀ (e : RamEnv) (s : Int), excOk (get_ram_info e s) = true) ∧
    (∀ (e : DiskEnv) (s : Int) parts, e.partitions = .ok parts →
      excOk (get_disk_info e s) = true) ∧
    (∀ (e : DiskEnv) (s : Int) err, e.partitions = .error err →
      get_disk_info e s = .error err) ∧
    (∀ (e : BatteryEnv) (s : Int) b, e.battery = .ok b →
      excOk (get_battery_info e s) = true) ∧
    (∀ (e : BatteryEnv) (s : Int) err, e.battery = .error err →
      get_battery_info e s = .error err) ∧
    (∀ (e : GpuEnv) (s : Int), excOk (get_gpu_info e s) = true) ∧
    (∀ (e : NetEnv) (s : Int), excOk (get_network_info e s) = true) ∧
    (∀ (e : AdvEnv) (s : Int), excOk (get_advanced_hardware_info e s) = true) ∧
    (∀ (e : FullEnv) (s : Int) parts b, e.disk.partitions = .ok parts →
      e.battery.battery = .ok b → excOk (run_all_checks e s) = true) := by
  refine ⟨?_, ?_, ?_, ?_, ?_, ?_, ?_, ?_, ?_, ?_, ?_⟩
  · intro e s
    rw [get_last_windows_update_eq]
    rfl
  · intro e s
    rw [get_cpu_info_eq]
    rfl
  · intro e s
    rw [get_ram_info_eq]
    rfl
  · intro e s parts hp
    rw [get_disk_info_ok e s parts hp]
    rfl
  · intro e s err hp
    exact get_disk_info_err e s err hp
  · intro e s b hb
    rw [get_battery_info_ok e s b hb]
    rfl
  · intro e s err hb
    exact get_battery_info_err e s err hb
  · intro e s
    rw [get_gpu_info_eq]
    rfl
  · intro e s
    rw [get_network_info_eq]
    rfl
  · intro e s
    rw [get_advanced_hardware_info_eq]
    rfl
  · intro e s parts b hd hb
    rw [run_all_checks_eq e s parts hd b hb]
    rfl

/-- Witness for amended C3: the completion statement applied to a concrete
environment. -/
theorem collectors_catch_their_errors_witness :
    excOk (run_all_checks baseFullEnv 100) = true :=
  collectors_catch_their_errors_except_two_call_sites.2.2.2.2.2.2.2.2.2.2
    baseFullEnv 100 [basePart] none rfl rfl


/-- Any checked report comes from one of the three requirement tables. -/
theorem upgrade_checked_cases (env : UpgEnv) (score : Int) (r : UpgradeReport)
    (h : (check_upgrade_compatibility env score).1 = .checked r) :
    r = runRequirementChecks env "Windows 8.1" legacyReq ∨
    r = runRequirementChecks env "Windows 10" legacyReq ∨
    r = runRequirementChecks env "Windows 11" win11Req := by
  unfold check_upgrade_compatibility at h
  split at h
  · simp at h
  · split at h
    · simp at h
      exact Or.inl h.symm
    · split at h
      · simp at h
        exact Or.inr (Or.inl h.symm)
      · split at h
        · split at h
          · simp at h
          · simp at h
            exact Or.inr (Or.inr h.symm)
        · simp at h

/-- The synthetic hardware of the C4 scenario: current version 10, build
19045, 1 core at 2000 MHz, 8 GB RAM, 100 GB disk, TPM "2.0", Secure Boot
enabled. -/
def envC4 : UpgEnv :=
  { isWindows := true, releaseMajor := 10, buildNumber := 19045,
    cpuQuery := .ok (1, 2000), ramQuery := .ok 8, diskQuery := .ok 100,
    secureBootQuery := .ok true, tpmQuery := .ok (some "2.0") }

/-- Report the source produces for envC4. -/
def reportC4 : UpgradeReport :=
  { target := "Windows 11", cpuOk := false, ramOk := true, diskOk := true,
    tpmBlock := some ⟨some true, some true, true⟩, compatible := false }

/-- envC4 but with a raising Secure Boot query. -/
def envC4bad : UpgEnv := { envC4 with secureBootQuery := .error () }

/-- Report the source produces for envC4bad. -/
def reportC4bad : UpgradeReport :=
  { target := "Windows 11", cpuOk := false, ramOk := true, diskOk := true,
    tpmBlock := some ⟨none, none, false⟩, compatible := false }

/-- Claim C4 counterexample: Secure Boot and TPM are queried inside one try
block (source lines 417-442), so when the Secure Boot query raises, the
whole block is marked failed and the TPM requirement is never evaluated or
reported (tpmReport = none) even though its own query would have succeeded
(envC4bad.tpmQuery is ok "2.0").  This refutes the part of the claim saying
every requirement is evaluated and reported regardless of earlier
failures. -/
theorem tpm_not_reported_after_secureboot_failure :
    check_upgrade_compatibility envC4bad 100 = (.checked reportC4bad, 100) ∧
    envC4bad.tpmQuery = .ok (some "2.0") ∧
    reportC4bad.tpmBlock = some ⟨none, none, false⟩ := by
  exact ⟨by decide, rfl, rfl⟩

/-- Claim C4 (amended): once a candidate target is selected, the CPU, RAM
and disk requirements are each evaluated and reported regardless of how the
other checks fared, and a requirement whose query fails counts as a failed
requirement; for target Windows 11 the Secure Boot and TPM checks run inside
one guarded block, so both are evaluated and reported whenever their queries
succeed, regardless of CPU/RAM/disk failures, but an exception in the Secure
Boot query fails the block and skips the TPM report; the verdict is
compatible if and only if CPU, RAM, disk and, for Windows 11, the
Secure-Boot/TPM block all passed.  On the synthetic scenario of the claim
(version 10, build 19045, 1 core at 2000 MHz, 8 GB RAM, 100 GB disk,
TPM "2.0", Secure Boot on), only the processor requirement fails and the
verdict is not compatible. -/
theorem upgrade_checks_evaluated_without_short_circuit :
    (∀ (env : UpgEnv) (score : Int) r,
      (check_upgrade_compatibility env score).1 = .checked r →
      r.compatible = (r.cpuOk && r.ramOk && r.diskOk &&
        (match r.tpmBlock with | none => true | some b => b.blockOk))) ∧
    (∀ (env : UpgEnv) (score : Int) r,
      (check_upgrade_compatibility env score).1 = .checked r →
      (env.cpuQuery = .error () → r.cpuOk = false) ∧
      (env.ramQuery = .error () → r.ramOk = false) ∧
      (env.diskQuery = .error () → r.diskOk = false)) ∧
    (∀ (env : UpgEnv) (score : Int) r,
      (check_upgrade_compatibility env score).1 = .checked r →
      (r.target = "Windows 11" → r.tpmBlock = some (runTpmBlock env)) ∧
      (r.target ≠ "Windows 11" → r.tpmBlock = none)) ∧
    (∀ (env : UpgEnv) (score : Int) r, env.isWindows = true →
      env.releaseMajor = 10 → env.buildNumber < 22000 →
      (check_upgrade_compatibility env score).1 = .checked r →
      (∀ c f, env.cpuQuery = .ok (c, f) →
        (r.cpuOk = true ↔ ¬(c < 2 ∨ f < 1000))) ∧
      (∀ v, env.ramQuery = .ok v → (r.ramOk = true ↔ ¬v < 4)) ∧
      (∀ v, env.diskQuery = .ok v → (r.diskOk = true ↔ ¬v < 64)) ∧
      (∀ sb t, env.secureBootQuery = .ok sb → env.tpmQuery = .ok t →
        r.tpmBlock = some ⟨some sb, some (isTpm20 t), sb && isTpm20 t⟩) ∧
      (env.secureBootQuery = .error () →
        r.tpmBlock = some ⟨none, none, false⟩)) ∧
    check_upgrade_compatibility envC4 100 = (.checked reportC4, 100) := by
  refine ⟨?_, ?_, ?_, ?_, by decide⟩
  · intro env score r h
    rcases upgrade_checked_cases env score r h with hr | hr | hr <;>
      subst hr <;> simp [runRequirementChecks]
  · intro env score r h
    rcases upgrade_checked_cases env score r h with hr | hr | hr <;>
      subst hr <;>
      exact ⟨fun hq => by simp [runRequirementChecks, cpuReqCheck, hq],
        fun hq => by simp [runRequirementChecks, ramReqCheck, hq],
        fun hq => by simp [runRequirementChecks, diskReqCheck, hq]⟩
  · intro env score r h
    rcases upgrade_checked_cases env score r h with hr | hr | hr <;> subst hr
    · constructor
      · intro ht
        simp [runRequirementChecks] at ht
      · intro ht
        simp [runRequirementChecks]
    · constructor
      · intro ht
        simp [runRequirementChecks] at ht
      · intro ht
        simp [runRequirementChecks]
    · constructor
      · intro ht
        simp [runRequirementChecks]
      · intro ht
        exact absurd (by simp [runRequirementChecks]) ht
  · intro env score r hw hmaj hb h
    have hnb : ¬(22000 : Int) ≤ env.buildNumber := by omega
    have h7 : env.releaseMajor ≠ 7 := by omega
    have h8 : env.releaseMajor ≠ 8 := by omega
    simp only [check_upgrade_compatibility, hw, hmaj, hnb, h7, h8] at h
    simp at h
    subst h
    refine ⟨?_, ?_, ?_, ?_, ?_⟩
    · intro c f hq
      simp only [runRequirementChecks, cpuReqCheck, hq, win11Req]
      split_ifs with hcf <;> simp [hcf]
    · intro v hq
      simp only [runRequirementChecks, ramReqCheck, hq, win11Req]
      split_ifs with hv <;> simp [hv]
    · intro v hq
      simp only [runRequirementChecks, diskReqCheck, hq, win11Req]
      split_ifs with hv <;> simp [hv]
    · intro sb t hsb ht
      simp [runRequirementChecks, runTpmBlock, hsb, ht]
    · intro hsb
      simp [runRequirementChecks, runTpmBlock, hsb]

/-- Witness for amended C4: the verdict formula applied to the concrete
scenario report. -/
theorem upgrade_checks_evaluated_witness :
    reportC4.compatible = (reportC4.cpuOk && reportC4.ramOk &&
      reportC4.diskOk &&
      (match reportC4.tpmBlock with | none => true | some b => b.blockOk)) :=
  upgrade_checks_evaluated_without_short_circuit.1 envC4 100 reportC4
    (by decide)

/-- Claim C5: on Windows with major version 10 and build number at least
22000, check_upgrade_compatibility reports that the system already runs
Windows 11 or newer and returns at once — the alreadyUpgraded outcome
carries no requirement report, so no hardware requirement is evaluated —
and the health score is returned unchanged. -/
theorem build_22000_skips_requirement_checks (env : UpgEnv) (score : Int)
    (hw : env.isWindows = true) (hmaj : env.releaseMajor = 10)
    (hb : (22000 : Int) ≤ env.buildNumber) :
    check_upgrade_compatibility env score = (.alreadyUpgraded, score) := by
  simp [check_upgrade_compatibility, hw, hmaj, hb]

/-- Witness for C5 at build number exactly 22000. -/
theorem build_22000_skips_requirement_checks_witness :
    check_upgrade_compatibility baseUpgEnv 100 = (.alreadyUpgraded, 100) :=
  build_22000_skips_requirement_checks baseUpgEnv 100 rfl rfl (by decide)

/-- Claim C6: when the partition enumeration succeeds, get_disk_info lowers
the score by exactly 10 for every partition whose readable usage is above 90
percent, cumulatively — N breaching partitions cost 10*N — and a partition
at or below 90 percent, or whose usage query fails, contributes nothing:
partBreach holds exactly for the readable partitions above 90 percent. -/
theorem diskPenaltyList_eq_countP (parts : List PartitionEnv) :
    diskPenaltyList parts = 10 * (parts.countP partBreach : Int) := by
  induction parts with
  | nil => simp [diskPenaltyList]
  | cons p ps ih =>
    by_cases hb : partBreach p = true <;>
      simp [diskPenaltyList, List.countP_cons, hb, ih] <;> push_cast <;> ring

theorem disk_penalty_ten_per_breaching_partition :
    (∀ (env : DiskEnv) (score : Int) parts, env.partitions = .ok parts →
      get_disk_info env score =
        .ok (score - 10 * (parts.countP partBreach : Int))) ∧
    (∀ p : PartitionEnv,
      partBreach p = true ↔ ∃ u, p.usage = .ok u ∧ 90 < u.percent) := by
  constructor
  · intro env score parts h
    rw [get_disk_info_ok env score parts h, diskPenaltyList_eq_countP]
  · intro p
    unfold partBreach
    cases hp : p.usage with
    | error e => simp
    | ok u => simp

/-- Witness for C6: four partitions at 95, 92, 90 percent and one with a
denied usage query; exactly the two above 90 percent cost 10 each. -/
def partAt (q : ℚ) : PartitionEnv :=
  { device := "D:", mountpoint := "D:\\",
    usage := .ok { total := 100, used := q, free := 0, percent := q } }

def deniedPart : PartitionEnv :=
  { device := "E:", mountpoint := "E:\\", usage := .error .permission }

def diskWEnv : DiskEnv :=
  { partitions := .ok [partAt 95, partAt 92, partAt 90, deniedPart] }

theorem disk_penalty_ten_per_breaching_partition_witness :
    get_disk_info diskWEnv 100 = .ok 80 := by
  have h := disk_penalty_ten_per_breaching_partition.1 diskWEnv 100
    [partAt 95, partAt 92, partAt 90, deniedPart] rfl
  rw [h]
  decide

/-- Claim C7: with a battery sensor present (and its query not raising),
the 10-point deduction happens if and only if the charge is strictly below
30 percent and power is not plugged in; a plugged-in battery never incurs
the penalty, and a battery at exactly 30 percent incurs none. -/
theorem battery_penalty_iff_low_and_unplugged (env : BatteryEnv)
    (score : Int) (b : BatteryInfo) (h : env.battery = .ok (some b)) :
    (get_battery_info env score = .ok (score - 10) ↔
      (b.percent < 30 ∧ b.power_plugged = false)) ∧
    (b.power_plugged = true → get_battery_info env score = .ok score) ∧
    (b.percent = 30 → get_battery_info env score = .ok score) := by
  simp only [get_battery_info, h]
  refine ⟨?_, ?_, ?_⟩
  · by_cases hc : b.percent < 30 ∧ b.power_plugged = false
    · simp [hc]
    · rw [if_neg hc]
      simp only [Except.ok.injEq]
      constructor
      · intro he
        exact absurd he (by omega)
      · intro hcond
        exact absurd hcond hc
  · intro hp
    rw [if_neg]
    intro hc
    rw [hp] at hc
    exact absurd hc.2 (by simp)
  · intro h30
    rw [if_neg]
    intro hc
    rw [h30] at hc
    exact absurd hc.1 (by norm_num)

/-- Witness for C7: a battery at 25 percent, unplugged, costs 10 points; the
same theorem also covers the plugged and exactly-30 cases. -/
def lowBattery : BatteryInfo := { percent := 25, power_plugged := false }

theorem battery_penalty_iff_low_and_unplugged_witness :
    get_battery_info { battery := .ok (some lowBattery) } 100 =
      .ok (100 - 10) :=
  (battery_penalty_iff_low_and_unplugged { battery := .ok (some lowBattery) }
    100 lowBattery rfl).1.mpr (by decide)

/-- Claim C8: show_health_report picks its tone from the final score with
exactly these boundaries: at least 80 is the good-condition message, 50
through 79 is the needs-attention message, below 50 is the poor-condition
message. -/
theorem report_tone_boundaries (s : Int) :
    ((80 : Int) ≤ s → (show_health_report s).1 = .good) ∧
    ((50 : Int) ≤ s → s ≤ 79 → (show_health_report s).1 = .attention) ∧
    (s < 50 → (show_health_report s).1 = .poor) := by
  unfold show_health_report reportTone
  refine ⟨?_, ?_, ?_⟩
  · intro h
    simp [h]
  · intro h1 h2
    rw [if_neg (by omega), if_pos h1]
  · intro h
    rw [if_neg (by omega), if_neg (by omega)]

/-- Witness for C8 at the four boundary scores named by the claim. -/
theorem report_tone_boundaries_witness :
    (show_health_report 80).1 = .good ∧
    (show_health_report 79).1 = .attention ∧
    (show_health_report 50).1 = .attention ∧
    (show_health_report 49).1 = .poor :=
  ⟨(report_tone_boundaries 80).1 (by decide),
    (report_tone_boundaries 79).2.1 (by decide) (by decide),
    (report_tone_boundaries 50).2.1 (by decide) (by decide),
    (report_tone_boundaries 49).2.2 (by decide)⟩

/-- Claim C9: get_network_info never changes the health score, and when the
interface enumeration succeeds it prints, for every interface, a line with
the interface name and, for each address of the interface, a MAC-labelled
line when the address family is the link-layer family the source tests
(AF_LINK, the literal -1) and an IP-labelled line when the family is
AF_INET. -/
theorem network_lists_macs_and_ips_without_scoring :
    (∀ (env : NetEnv) (score : Int) lines s2,
      get_network_info env score = .ok (lines, s2) → s2 = score) ∧
    (∀ (env : NetEnv) (score : Int) ifs lines s2,
      env.interfaces = .ok ifs →
      get_network_info env score = .ok (lines, s2) →
      ∀ name addrs, (name, addrs) ∈ ifs →
        NetLine.iface name ∈ lines ∧
        ∀ a ∈ addrs,
          (a.family = AF_LINK → NetLine.mac a.address ∈ lines) ∧
          (a.family = AF_INET → NetLine.ip a.address ∈ lines)) := by
  constructor
  · intro env score lines s2 h
    rw [get_network_info_eq] at h
    simp only [Except.ok.injEq, Prod.mk.injEq] at h
    omega
  · intro env score ifs lines s2 hi h name addrs hmem
    rw [get_network_info_eq] at h
    simp only [Except.ok.injEq, Prod.mk.injEq] at h
    obtain ⟨hl, -⟩ := h
    subst hl
    unfold netLinesOf
    rw [hi]
    constructor
    · exact List.mem_flatMap.mpr ⟨(name, addrs), hmem, by
        simp [netIfaceLines]⟩
    · intro a ha
      constructor
      · intro hfam
        refine List.mem_flatMap.mpr ⟨(name, addrs), hmem, ?_⟩
        refine List.mem_cons_of_mem _ (List.mem_flatMap.mpr ⟨a, ha, ?_⟩)
        simp [netAddrLines, hfam]
      · intro hfam
        refine List.mem_flatMap.mpr ⟨(name, addrs), hmem, ?_⟩
        refine List.mem_cons_of_mem _ (List.mem_flatMap.mpr ⟨a, ha, ?_⟩)
        simp [netAddrLines, hfam, AF_LINK, AF_INET]

/-- Witness for C9 at the concrete base interface list. -/
theorem network_lists_macs_and_ips_witness :
    NetLine.iface "eth0" ∈ baseNetLines ∧
    NetLine.mac "aa:bb:cc:dd:ee:ff" ∈ baseNetLines ∧
    NetLine.ip "192.168.1.2" ∈ baseNetLines := by
  have h := network_lists_macs_and_ips_without_scoring.2 baseNetEnv 100
    [("eth0", [baseIpAddr, baseMacAddr])] baseNetLines 100 rfl (by decide)
    "eth0" [baseIpAddr, baseMacAddr] (by decide)
  exact ⟨h.1, (h.2 baseMacAddr (by decide)).1 (by decide),
    (h.2 baseIpAddr (by decide)).2 (by decide)⟩

/-- Claim C10: the purely informational operations — get_system_info,
get_last_windows_update, get_network_info, get_advanced_hardware_info, the
WMI GPU fallback, and check_upgrade_compatibility — return the health score
they were given, under every environment and outcome; only the CPU, RAM,
disk, battery and primary-path GPU checks can change it. -/
theorem informational_ops_preserve_score :
    (∀ (e : SysInfoEnv) (s : Int), (get_system_info e s).2 = s) ∧
    (∀ (e : UpdEnv) (s : Int) o s2,
      get_last_windows_update e s = .ok (o, s2) → s2 = s) ∧
    (∀ (e : NetEnv) (s : Int) l s2,
      get_network_info e s = .ok (l, s2) → s2 = s) ∧
    (∀ (e : AdvEnv) (s : Int) o s2,
      get_advanced_hardware_info e s = .ok (o, s2) → s2 = s) ∧
    (∀ (e : FbEnv) (s : Int), (fallback_gpu_detection e s).2 = s) ∧
    (∀ (e : UpgEnv) (s : Int), (check_upgrade_compatibility e s).2 = s) := by
  refine ⟨get_system_info_frame, ?_, ?_, ?_,
    fallback_gpu_detection_frame, check_upgrade_compatibility_frame⟩
  · intro e s o s2 h
    rw [get_last_windows_update_eq] at h
    simp only [Except.ok.injEq, Prod.mk.injEq] at h
    omega
  · intro e s l s2 h
    rw [get_network_info_eq] at h
    simp only [Except.ok.injEq, Prod.mk.injEq] at h
    omega
  · intro e s o s2 h
    rw [get_advanced_hardware_info_eq] at h
    simp only [Except.ok.injEq, Prod.mk.injEq] at h
    omega

/-- Witness for C10: the update collector and the upgrade checker leave a
concrete score of 100 unchanged. -/
theorem informational_ops_preserve_score_witness :
    (100 : Int) = 100 ∧ (check_upgrade_compatibility envC4 100).2 = 100 :=
  ⟨informational_ops_preserve_score.2.1 baseUpdEnv 100
      (.updateInfo "KB5005565") 100 (by decide),
    informational_ops_preserve_score.2.2.2.2.2 envC4 100⟩
